import Mathlib

/-!
Verification development for the access_time3 workload generator core of the
storiks repository.  The definitions below are shallow embeddings of the C++
code in src/access_time3.cc and src/src/access_time3_args.cc: machine
integers become Nat with explicit reduction modulo 2^64 or 2^32 where the
C++ arithmetic wraps, the process-wide pseudo-random draws become explicit
function arguments (the value drawn), and C++ exceptions become an error
component in the result.
-/

namespace AccessTime3

/-- Modulus of the C++ uint64_t type (2 to the power 64). -/
def M64 : Nat := 18446744073709551616

/-- Modulus of the C++ uint32_t type (2 to the power 32). -/
def M32 : Nat := 4294967296

/-- Addition as performed on uint64_t values. -/
def u64add (a b : Nat) : Nat := (a + b) % M64

/-- Subtraction as performed on uint64_t values (wrap-around, never fails). -/
def u64sub (a b : Nat) : Nat := (a + (M64 - b % M64)) % M64

/-- Multiplication as performed on uint64_t values. -/
def u64mul (a b : Nat) : Nat := (a * b) % M64

/-- Embedding of struct Stats (access_time3.cc lines 98-121): five uint64_t
counters, all zero-initialized. -/
@[ext] structure Stats where
  blocks : Nat := 0
  blocks_read : Nat := 0
  blocks_write : Nat := 0
  KB_read : Nat := 0
  KB_write : Nat := 0
  deriving Repr, DecidableEq

/-- Embedding of Stats::operator-= componentwise uint64_t subtraction
(access_time3.cc lines 104-112). -/
def Stats.sub (a b : Stats) : Stats where
  blocks := u64sub a.blocks b.blocks
  blocks_read := u64sub a.blocks_read b.blocks_read
  blocks_write := u64sub a.blocks_write b.blocks_write
  KB_read := u64sub a.KB_read b.KB_read
  KB_write := u64sub a.KB_write b.KB_write

/-- Embedding of Stats::operator+= componentwise uint64_t addition
(access_time3.cc lines 113-120). -/
def Stats.add (a b : Stats) : Stats where
  blocks := u64add a.blocks b.blocks
  blocks_read := u64add a.blocks_read b.blocks_read
  blocks_write := u64add a.blocks_write b.blocks_write
  KB_read := u64add a.KB_read b.KB_read
  KB_write := u64add a.KB_write b.KB_write

/-- A Stats value whose counters are in the uint64_t range. -/
def Stats.wf (a : Stats) : Prop :=
  a.blocks < M64 ∧ a.blocks_read < M64 ∧ a.blocks_write < M64 ∧
  a.KB_read < M64 ∧ a.KB_write < M64

instance (a : Stats) : Decidable a.wf := by
  unfold Stats.wf; infer_instance

/-- Upper bound of the iodepth parameter (access_time3_args.h line 22). -/
def max_iodepth : Nat := 128

/-- Embedding of the live-mutable fields of struct Args
(access_time3_args.h lines 203-214).  The two ratio parameters are C++
doubles; they are modelled as rationals (every double in the validated
range 0..1 is a rational, and the only arithmetic applied to them is the
exact multiplication by 1024 and truncation in Randomizer).  -/
structure Args where
  changed : Bool := false
  wait : Bool := false
  filesize : Nat := 0
  block_size : Nat := 4
  iodepth : Nat := 1
  flush_blocks : Nat := 0
  write_ratio : ℚ := 0
  random_ratio : ℚ := 0
  o_dsync : Bool := false
  io_engine : String := "posix"
  deriving Repr, DecidableEq

/-- Resolution of the Bernoulli draw, Randomizer::ratio_precision
(access_time3.cc line 56). -/
def ratio_precision : Nat := 1024

/-- Truncation of ratio * ratio_precision toward zero, the uint32_t cast of
access_time3.cc line 67: for a nonnegative rational num/den in lowest terms
this is num * 1024 / den in natural division. -/
def ratio_threshold (ratio : ℚ) : Nat :=
  ratio.num.toNat * ratio_precision / ratio.den

/-- Embedding of Randomizer::randomize_ratio (access_time3.cc lines 66-68).
The value drawn by dist_ratio from the 32-bit generator, uniform over
0..ratio_precision-1, is passed in as the argument draw; the C++ cast
static_cast of (ratio * 1024) to uint32_t truncates toward zero, which on
the validated range 0..1 is ratio_threshold. -/
def randomize_ratio (ratio : ℚ) (draw : Nat) : Bool :=
  decide (draw < ratio_threshold ratio)

/-- Embedding of struct AccessParams (access_time3.cc lines 142-148). -/
structure AccessParams where
  block_size : Nat
  size : Nat
  offset : Nat
  write : Bool
  dsync : Bool
  deriving Repr, DecidableEq

/-- The shaper state owned by EngineController (access_time3.cc lines
730-736): current block size, buffer size in bytes, number of blocks of the
file and the sequential cursor. -/
structure ShaperState where
  cur_block_size : Nat
  buffer_size : Nat
  file_blocks : Nat
  cur_block : Nat
  deriving Repr, DecidableEq

/-- Initial shaper state (field initializers at access_time3.cc lines
731-734): everything zero. -/
def init_shaper : ShaperState := ⟨0, 0, 0, 0⟩

/-- Embedding of EngineController::check_arg_updates (access_time3.cc lines
738-753): when the configured block size differs from the current one, the
shaper state is rebuilt; cur_block is set to file_blocks so that the next
sequential access wraps to block 0, and the uniform block distribution is
rebuilt over 0..file_blocks-1 (modelled by the bound on the drawn block in
the theorems below). -/
def check_arg_updates (args : Args) (s : ShaperState) : ShaperState :=
  if s.cur_block_size ≠ args.block_size then
    { cur_block_size := args.block_size
      buffer_size := args.block_size * 1024
      file_blocks := args.filesize * 1024 / args.block_size
      cur_block := args.filesize * 1024 / args.block_size }
  else s

/-- Embedding of EngineController::access_params_lambda (access_time3.cc
lines 774-798).  The three pseudo-random inputs are explicit: writeDraw and
randomDraw are the two dist_ratio draws (uniform over 0..1023) deciding the
write flag and the random-vs-sequential branch, and randBlock is the value
drawn from rand_block (uniform over 0..file_blocks-1) when the random
branch is taken.  Returns the produced AccessParams together with the
updated shaper state. -/
def access_params_lambda (args : Args) (s : ShaperState)
    (writeDraw randomDraw randBlock : Nat) : AccessParams × ShaperState :=
  let write := randomize_ratio args.write_ratio writeDraw
  let cur_block :=
    if randomize_ratio args.random_ratio randomDraw then
      randBlock
    else if s.file_blocks ≤ s.cur_block + 1 then 0
    else s.cur_block + 1
  ({ block_size := s.cur_block_size
     size := s.buffer_size
     offset := cur_block * s.buffer_size
     write := write
     dsync := args.o_dsync },
   { s with cur_block := cur_block })

/-- Per-request Stats delta built by PosixEngine::make_requests
(access_time3.cc lines 198-204). -/
def posix_request_stats (params : AccessParams) : Stats where
  blocks := 1
  blocks_read := if params.write then 0 else 1
  blocks_write := if params.write then 1 else 0
  KB_read := if params.write then 0 else params.block_size
  KB_write := if params.write then params.block_size else 0

/-- Per-request Stats delta built by AIORequest::request
(access_time3.cc lines 292-298). -/
def aio_request_stats (params : AccessParams) : Stats where
  blocks := 1
  blocks_read := if params.write then 0 else 1
  blocks_write := if params.write then 1 else 0
  KB_read := if params.write then 0 else params.block_size
  KB_write := if params.write then params.block_size else 0

/-- Per-request Stats delta built by the Prwv2Engine worker thread
(access_time3.cc lines 538-544). -/
def prwv2_request_stats (params : AccessParams) : Stats where
  blocks := 1
  blocks_read := if params.write then 0 else 1
  blocks_write := if params.write then 1 else 0
  KB_read := if params.write then 0 else params.block_size
  KB_write := if params.write then params.block_size else 0

/-- Embedding of EngineController::increment_stats_lambda (access_time3.cc
lines 766-771): the controller accumulator absorbs one published delta. -/
def increment_stats_lambda (acc val : Stats) : Stats := acc.add val

/-- The controller accumulator after a run publishing the given list of
deltas, starting from the zero-initialized EngineController::stats. -/
def controller_accumulate (deltas : List Stats) : Stats :=
  deltas.foldl increment_stats_lambda {}

/-- A Stats value is a request delta for block size bs when it was produced
by one of the three engines from an AccessParams with that block size. -/
def is_request_delta (bs : Nat) (d : Stats) : Prop :=
  ∃ p : AccessParams, p.block_size = bs ∧
    (d = posix_request_stats p ∨ d = aio_request_stats p ∨ d = prwv2_request_stats p)

/-- Commands handled by Args::executeCommand (access_time3_args.cc lines
154-201).  Each parameter command carries the result of its alutils parser:
some v when the value string parsed, none when the parser threw. -/
inductive ATCommand where
  | help
  | cmd_wait (v : Option Bool)
  | cmd_block_size (v : Option Nat)
  | cmd_iodepth (v : Option Nat)
  | cmd_write_ratio (v : Option ℚ)
  | cmd_random_ratio (v : Option ℚ)
  | cmd_flush_blocks (v : Option Nat)
  | unknown (name : String)
  deriving Repr, DecidableEq

/-- Flag validator condition for block_size (access_time3_args.h lines
76-80): value at least 4. -/
def validate_block_size (v : Nat) : Bool := decide (4 ≤ v)

/-- Flag validator condition for iodepth (access_time3_args.h lines 71-75):
positive and at most max_iodepth. -/
def validate_iodepth (v : Nat) : Bool := decide (0 < v ∧ v ≤ max_iodepth)

/-- Flag validator condition for write_ratio and random_ratio
(access_time3_args.h lines 86-95): within 0..1. -/
def validate_ratio (v : ℚ) : Bool := decide (0 ≤ v ∧ v ≤ 1)

/-- Embedding of Args::executeCommand (access_time3_args.cc lines 154-201).
Returns the error message thrown (none on success) together with the Args
value after the call; the C++ code mutates in place, and every throw occurs
before any field assignment of its branch, so the state returned on an
error is the input state.  The parseLineCommandValidate branches
(block_size, iodepth, write_ratio, random_ratio) check the immutability
condition, parse, validate, assign and set changed; the parseLineCommand
branches (wait, flush_blocks) parse and assign without touching changed. -/
def executeCommand (s : Args) (c : ATCommand) : Option String × Args :=
  match c with
  | .help => (none, s)
  | .cmd_wait v =>
      match v with
      | some b => (none, { s with wait := b })
      | none => (some "invalid value for the command wait", s)
  | .cmd_block_size v =>
      match v with
      | some a =>
          if validate_block_size a then
            (none, { s with block_size := a, changed := true })
          else (some "Invalid value for the parameter block_size", s)
      | none => (some "invalid value for the command block_size", s)
  | .cmd_iodepth v =>
      if s.io_engine = "posix" then
        (some "parameter iodepth is immutable due to condition: io_engine == posix", s)
      else
        match v with
        | some a =>
            if validate_iodepth a then
              (none, { s with iodepth := a, changed := true })
            else (some "Invalid value for the parameter iodepth", s)
        | none => (some "invalid value for the command iodepth", s)
  | .cmd_write_ratio v =>
      match v with
      | some a =>
          if validate_ratio a then
            (none, { s with write_ratio := a, changed := true })
          else (some "Invalid value for the parameter write_ratio", s)
      | none => (some "invalid value for the command write_ratio", s)
  | .cmd_random_ratio v =>
      match v with
      | some a =>
          if validate_ratio a then
            (none, { s with random_ratio := a, changed := true })
          else (some "Invalid value for the parameter random_ratio", s)
      | none => (some "invalid value for the command random_ratio", s)
  | .cmd_flush_blocks v =>
      match v with
      | some a => (none, { s with flush_blocks := a })
      | none => (some "invalid value for the command flush_blocks", s)
  | .unknown _ => (some "Invalid command", s)

/-- Retry bound Reader::max_shift_report_time_tries (access_time3.cc line
893). -/
def max_shift_report_time_tries : Nat := 2

/-- The atomics of Reader involved in the shift_report_time command
(access_time3.cc lines 894-895): the pending shift in milliseconds and the
retry counter. -/
structure ShiftState where
  shift_report_time_ms : Int
  shift_report_time_tries : Nat
  deriving Repr, DecidableEq

/-- Outcome of one shift_report_time command, one constructor per branch of
Reader::handle_commands (access_time3.cc lines 996-1014). -/
inductive ShiftOutcome where
  | rejected_range
  | stored
  | overridden
  | pending_fail
  deriving Repr, DecidableEq

/-- The rejection limit 700 * stats_interval, computed in uint32_t
arithmetic as in access_time3.cc line 999. -/
def shift_limit (stats_interval : Nat) : Nat := (700 * stats_interval) % M32

/-- Embedding of the shift_report_time branch of Reader::handle_commands
(access_time3.cc lines 996-1014).  ms is the parsed signed argument; the
compare-and-exchange on the atomic slot is modelled as the test that the
slot is 0. -/
def handle_shift (stats_interval : Nat) (st : ShiftState) (ms : Int) :
    ShiftOutcome × ShiftState :=
  if shift_limit stats_interval ≤ ms.natAbs then
    (.rejected_range, st)
  else if st.shift_report_time_ms = 0 then
    (.stored, ⟨ms, 0⟩)
  else if max_shift_report_time_tries ≤ st.shift_report_time_tries then
    (.overridden, ⟨ms, 0⟩)
  else
    (.pending_fail, ⟨st.shift_report_time_ms, st.shift_report_time_tries + 1⟩)

/-- Invariant carried by the controller accumulator: each counter is the
uint64_t reduction of the exact count of reads r and writes w published so
far,.for a fixed block size bs. -/
def stats_inv (bs : Nat) (acc : Stats) : Prop :=
  ∃ r w : Nat, acc.blocks_read = r % M64 ∧ acc.blocks_write = w % M64 ∧
    acc.blocks = (r + w) % M64 ∧ acc.KB_read = r * bs % M64 ∧
    acc.KB_write = w * bs % M64

theorem u64sub_u64add_cancel (x y : Nat) (hx : x < M64) :
    u64sub (u64add x y) y = x := by
  unfold u64sub u64add M64 at *
  omega

theorem u64sub_int_spec (x y : Nat) :
    ((u64sub x y : Nat) : ℤ) = ((x : ℤ) - (y : ℤ)) % ((M64 : Nat) : ℤ) := by
  unfold u64sub M64
  omega

theorem u64add_mod_left (x k : Nat) : u64add (x % M64) k = (x + k) % M64 := by
  unfold u64add
  exact Nat.mod_add_mod x M64 k

theorem randomize_ratio_zero (d : Nat) : randomize_ratio 0 d = false := by
  have h : ratio_threshold 0 = 0 := rfl
  simp [randomize_ratio, h]

theorem randomize_ratio_one (d : Nat) (hd : d < ratio_precision) :
    randomize_ratio 1 d = true := by
  have h : ratio_threshold 1 = 1024 := rfl
  have hp : ratio_precision = 1024 := rfl
  simp only [randomize_ratio, h, decide_eq_true_eq]
  omega

/-- C4: Stats subtraction inverts accumulation: for every pair of Stats
values a and b (counters in uint64_t range), ((a += b) - b) == a
componentwise on all five counters, and += is componentwise (uint64_t)
addition. -/
theorem C4_stats_sub_inverts_add (a b : Stats) (ha : a.wf) (hb : b.wf) :
    (a.add b).sub b = a ∧
    (a.add b).blocks = u64add a.blocks b.blocks ∧
    (a.add b).blocks_read = u64add a.blocks_read b.blocks_read ∧
    (a.add b).blocks_write = u64add a.blocks_write b.blocks_write ∧
    (a.add b).KB_read = u64add a.KB_read b.KB_read ∧
    (a.add b).KB_write = u64add a.KB_write b.KB_write := by
  obtain ⟨h1, h2, h3, h4, h5⟩ := ha
  refine ⟨?_, rfl, rfl, rfl, rfl, rfl⟩
  ext
  · exact u64sub_u64add_cancel a.blocks b.blocks h1
  · exact u64sub_u64add_cancel a.blocks_read b.blocks_read h2
  · exact u64sub_u64add_cancel a.blocks_write b.blocks_write h3
  · exact u64sub_u64add_cancel a.KB_read b.KB_read h4
  · exact u64sub_u64add_cancel a.KB_write b.KB_write h5

/-- Witness for C4 at a concrete pair of Stats values. -/
theorem C4_stats_sub_inverts_add_witness :
    (Stats.mk 1 2 3 4 5).wf ∧ (Stats.mk 6 7 8 9 10).wf ∧
    ((Stats.mk 1 2 3 4 5).add (Stats.mk 6 7 8 9 10)).sub (Stats.mk 6 7 8 9 10)
      = Stats.mk 1 2 3 4 5 :=
  ⟨by decide, by decide,
   (C4_stats_sub_inverts_add (Stats.mk 1 2 3 4 5) (Stats.mk 6 7 8 9 10)
     (by decide) (by decide)).1⟩

/-- C10: Stats subtraction is unguarded uint64_t subtraction: every counter
of (a - b) is the representative of (a.counter - b.counter) modulo 2 to the
64, so a subtrahend counter exceeding the minuend wraps around rather than
failing; Stats.sub is total and performs no check. -/
theorem C10_sub_wraparound (a b : Stats) :
    (((a.sub b).blocks : ℤ) = ((a.blocks : ℤ) - (b.blocks : ℤ)) % ((M64 : Nat) : ℤ)) ∧
    (((a.sub b).blocks_read : ℤ)
      = ((a.blocks_read : ℤ) - (b.blocks_read : ℤ)) % ((M64 : Nat) : ℤ)) ∧
    (((a.sub b).blocks_write : ℤ)
      = ((a.blocks_write : ℤ) - (b.blocks_write : ℤ)) % ((M64 : Nat) : ℤ)) ∧
    (((a.sub b).KB_read : ℤ) = ((a.KB_read : ℤ) - (b.KB_read : ℤ)) % ((M64 : Nat) : ℤ)) ∧
    (((a.sub b).KB_write : ℤ) = ((a.KB_write : ℤ) - (b.KB_write : ℤ)) % ((M64 : Nat) : ℤ)) :=
  ⟨u64sub_int_spec a.blocks b.blocks, u64sub_int_spec a.blocks_read b.blocks_read,
   u64sub_int_spec a.blocks_write b.blocks_write, u64sub_int_spec a.KB_read b.KB_read,
   u64sub_int_spec a.KB_write b.KB_write⟩

/-- C9: the Bernoulli draw is exact at the endpoints: for every value drawn
by the uniform distribution over 0..1023, randomize_ratio 0 is false and
randomize_ratio 1 is true; consequently the shaper produces no write
request when write_ratio = 0 and only write requests when write_ratio = 1. -/
theorem C9_ratio_endpoints :
    (∀ draw : Nat, randomize_ratio 0 draw = false) ∧
    (∀ draw : Nat, draw < ratio_precision → randomize_ratio 1 draw = true) ∧
    (∀ (args : Args) (s : ShaperState) (wd rd rb : Nat), args.write_ratio = 0 →
      ((access_params_lambda args s wd rd rb).1).write = false) ∧
    (∀ (args : Args) (s : ShaperState) (wd rd rb : Nat), args.write_ratio = 1 →
      wd < ratio_precision → ((access_params_lambda args s wd rd rb).1).write = true) := by
  refine ⟨randomize_ratio_zero, randomize_ratio_one, ?_, ?_⟩
  · intro args s wd rd rb h
    simp only [access_params_lambda, h]
    exact randomize_ratio_zero wd
  · intro args s wd rd rb h hwd
    simp only [access_params_lambda, h]
    exact randomize_ratio_one wd hwd

/-- Witness for C9 at concrete draws and shaper inputs. -/
theorem C9_ratio_endpoints_witness :
    (5 : Nat) < ratio_precision ∧ randomize_ratio 1 5 = true ∧
    ({ write_ratio := 0 } : Args).write_ratio = 0 ∧
    ((access_params_lambda { write_ratio := 0 } ⟨4, 4096, 2560, 0⟩ 5 0 0).1).write = false :=
  ⟨by decide, C9_ratio_endpoints.2.1 5 (by decide), rfl,
   C9_ratio_endpoints.2.2.1 { write_ratio := 0 } ⟨4, 4096, 2560, 0⟩ 5 0 0 rfl⟩

/-- C1 (amended): every AccessParams produced by the shaper satisfies
size = block_size * 1024, offset mod size = 0 and
offset + size ≤ filesize * 1024 * 1024, for every reachable shaper state
(current block_size at least 4, buffer_size = block_size * 1024,
file_blocks = filesize * 1024 / block_size) in both the random and the
sequential branch — provided file_blocks is at least 1, that is, the
current block size does not exceed the file (the original unconditional
claim fails when file_blocks = 0, see the counterexample). -/
theorem C1_shaper_invariants (args : Args) (s : ShaperState) (wd rd rb : Nat)
    (hbs : 4 ≤ s.cur_block_size)
    (hbuf : s.buffer_size = s.cur_block_size * 1024)
    (hfb : s.file_blocks = args.filesize * 1024 / s.cur_block_size)
    (hpos : 1 ≤ s.file_blocks)
    (hrb : rb < s.file_blocks) :
    ((access_params_lambda args s wd rd rb).1).size = s.cur_block_size * 1024 ∧
    ((access_params_lambda args s wd rd rb).1).offset %
      ((access_params_lambda args s wd rd rb).1).size = 0 ∧
    ((access_params_lambda args s wd rd rb).1).offset +
      ((access_params_lambda args s wd rd rb).1).size
      ≤ args.filesize * 1024 * 1024 := by
  simp only [access_params_lambda]
  refine ⟨hbuf, Nat.mul_mod_left _ _, ?_⟩
  have hcur : (if randomize_ratio args.random_ratio rd then rb
      else if s.file_blocks ≤ s.cur_block + 1 then 0
      else s.cur_block + 1) < s.file_blocks := by
    split
    · exact hrb
    · split <;> omega
  set c := (if randomize_ratio args.random_ratio rd then rb
      else if s.file_blocks ≤ s.cur_block + 1 then 0
      else s.cur_block + 1) with hc
  calc c * s.buffer_size + s.buffer_size = (c + 1) * s.buffer_size := by ring
    _ ≤ s.file_blocks * s.buffer_size := Nat.mul_le_mul_right _ (by omega)
    _ = args.filesize * 1024 / s.cur_block_size * s.cur_block_size * 1024 := by
        rw [hfb, hbuf, Nat.mul_assoc]
    _ ≤ args.filesize * 1024 * 1024 :=
        Nat.mul_le_mul_right _ (Nat.div_mul_le_self _ _)

/-- Witness for C1 at a concrete reachable state (10 MiB file, 4 KiB
blocks). -/
theorem C1_shaper_invariants_witness :
    (4 : Nat) ≤ 4 ∧ (4096 : Nat) = 4 * 1024 ∧
    (2560 : Nat) = ({ filesize := 10, block_size := 4 } : Args).filesize * 1024 / 4 ∧
    (1 : Nat) ≤ 2560 ∧ (0 : Nat) < 2560 ∧
    ((access_params_lambda { filesize := 10, block_size := 4 }
        ⟨4, 4096, 2560, 7⟩ 0 0 0).1).size = 4 * 1024 :=
  ⟨by decide, by decide, by decide, by decide, by decide,
   (C1_shaper_invariants { filesize := 10, block_size := 4 } ⟨4, 4096, 2560, 7⟩ 0 0 0
     (by decide) (by decide) (by decide) (by decide) (by decide)).1⟩

/-- Counterexample to C1 as stated: with filesize = 10 MiB and a live
block_size of 10241 KiB (validated, since only 4 ≤ block_size is checked),
the rebuilt state has file_blocks = 0 and the next sequential AccessParams
has offset 0 and size 10241 * 1024 bytes, which exceeds
filesize * 1024 * 1024 = 10485760. -/
theorem C1_counterexample :
    4 ≤ (check_arg_updates { filesize := 10, block_size := 10241 } init_shaper).cur_block_size ∧
    (check_arg_updates { filesize := 10, block_size := 10241 } init_shaper).buffer_size
      = (check_arg_updates { filesize := 10, block_size := 10241 } init_shaper).cur_block_size
        * 1024 ∧
    (check_arg_updates { filesize := 10, block_size := 10241 } init_shaper).file_blocks
      = ({ filesize := 10, block_size := 10241 } : Args).filesize * 1024
        / (check_arg_updates { filesize := 10, block_size := 10241 } init_shaper).cur_block_size ∧
    ¬ (((access_params_lambda { filesize := 10, block_size := 10241 }
          (check_arg_updates { filesize := 10, block_size := 10241 } init_shaper) 0 0 0).1).offset
        + ((access_params_lambda { filesize := 10, block_size := 10241 }
          (check_arg_updates { filesize := 10, block_size := 10241 } init_shaper) 0 0 0).1).size
        ≤ ({ filesize := 10, block_size := 10241 } : Args).filesize * 1024 * 1024) := by
  decide

/-- C2: with random_ratio = 0, a call to the shaper from a state whose
cursor is in range (as after any previous call) advances the cursor to
(cur_block + 1) mod file_blocks; the returned offset is the new cursor
times buffer_size, equal to the previous offset plus buffer_size except
that from the last block (cur_block = file_blocks - 1) the returned offset
is 0. -/
theorem C2_sequential_advance (args : Args) (s : ShaperState) (wd rd rb : Nat)
    (hr : args.random_ratio = 0) (hc : s.cur_block < s.file_blocks) :
    ((access_params_lambda args s wd rd rb).2).cur_block
      = (s.cur_block + 1) % s.file_blocks ∧
    ((access_params_lambda args s wd rd rb).1).offset
      = ((access_params_lambda args s wd rd rb).2).cur_block * s.buffer_size ∧
    (s.cur_block + 1 < s.file_blocks →
      ((access_params_lambda args s wd rd rb).1).offset
        = s.cur_block * s.buffer_size + s.buffer_size) ∧
    (s.cur_block + 1 = s.file_blocks →
      ((access_params_lambda args s wd rd rb).1).offset = 0) := by
  have hfalse : randomize_ratio args.random_ratio rd = false := by
    rw [hr]; exact randomize_ratio_zero rd
  simp only [access_params_lambda, hfalse, Bool.false_eq_true, if_false]
  by_cases h2 : s.file_blocks ≤ s.cur_block + 1
  · have he : s.cur_block + 1 = s.file_blocks := by omega
    simp only [h2, if_true]
    refine ⟨by rw [he, Nat.mod_self], by simp, ?_, ?_⟩
    · intro hlt; omega
    · intro _; simp
  · have hlt : s.cur_block + 1 < s.file_blocks := by omega
    simp only [h2, if_false]
    refine ⟨(Nat.mod_eq_of_lt hlt).symm, by simp, ?_, ?_⟩
    · intro _; ring
    · intro he; omega

/-- Witness for C2 at a concrete state. -/
theorem C2_sequential_advance_witness :
    ({} : Args).random_ratio = 0 ∧ (5 : Nat) < 2560 ∧
    ((access_params_lambda {} ⟨4, 4096, 2560, 5⟩ 0 0 0).2).cur_block = (5 + 1) % 2560 :=
  ⟨rfl, by decide,
   (C2_sequential_advance {} ⟨4, 4096, 2560, 5⟩ 0 0 0 rfl (by decide)).1⟩

/-- C3 (amended): when block_size changes mid-run, check_arg_updates sets
buffer_size = block_size * 1024, file_blocks = filesize * 1024 / block_size
and cur_block = file_blocks; the first AccessParams issued after the
rebuild has offset 0 whenever the random-access draw is false — in
particular always when random_ratio = 0.  (The original claim that the
first offset is 0 for every random_ratio fails: the random branch draws an
arbitrary block; see the counterexample.) -/
theorem C3_rebuild (args : Args) (s : ShaperState)
    (h : s.cur_block_size ≠ args.block_size) :
    (check_arg_updates args s).buffer_size = args.block_size * 1024 ∧
    (check_arg_updates args s).file_blocks = args.filesize * 1024 / args.block_size ∧
    (check_arg_updates args s).cur_block = (check_arg_updates args s).file_blocks ∧
    (∀ wd rd rb : Nat, randomize_ratio args.random_ratio rd = false →
      ((access_params_lambda args (check_arg_updates args s) wd rd rb).1).offset = 0) := by
  simp only [check_arg_updates, if_pos h]
  refine ⟨trivial, trivial, trivial, ?_⟩
  intro wd rd rb hrd
  simp [access_params_lambda, hrd]

/-- Witness for C3 at a concrete rebuild (block_size 0 to 4). -/
theorem C3_rebuild_witness :
    init_shaper.cur_block_size ≠ ({ filesize := 10, block_size := 4 } : Args).block_size ∧
    randomize_ratio ({ filesize := 10, block_size := 4 } : Args).random_ratio 0 = false ∧
    ((access_params_lambda { filesize := 10, block_size := 4 }
        (check_arg_updates { filesize := 10, block_size := 4 } init_shaper) 0 0 0).1).offset
      = 0 :=
  ⟨by decide, by decide,
   (C3_rebuild { filesize := 10, block_size := 4 } init_shaper
     (by decide)).2.2.2 0 0 0 (by decide)⟩

/-- Counterexample to C3 as stated: with random_ratio = 1 the first
post-rebuild draw takes the random branch, and a drawn block of 1 (valid:
file_blocks = 2560 after the rebuild with filesize 10 and block_size 4)
yields offset 4096, not 0. -/
theorem C3_counterexample :
    (1 : Nat) < (check_arg_updates { filesize := 10, block_size := 4, random_ratio := 1 }
        init_shaper).file_blocks ∧
    ((access_params_lambda { filesize := 10, block_size := 4, random_ratio := 1 }
        (check_arg_updates { filesize := 10, block_size := 4, random_ratio := 1 } init_shaper)
        0 0 1).1).offset ≠ 0 := by
  decide

theorem request_delta_cases (bs : Nat) (d : Stats) (h : is_request_delta bs d) :
    d = Stats.mk 1 1 0 bs 0 ∨ d = Stats.mk 1 0 1 0 bs := by
  obtain ⟨p, hbs, hd⟩ := h
  subst hbs
  rcases hd with h | h | h <;> subst h <;> cases hw : p.write <;>
    simp [posix_request_stats, aio_request_stats, prwv2_request_stats, hw]

theorem stats_inv_step (bs : Nat) (acc d : Stats) (hacc : stats_inv bs acc)
    (hd : is_request_delta bs d) :
    stats_inv bs (increment_stats_lambda acc d) := by
  obtain ⟨r, w, h1, h2, h3, h4, h5⟩ := hacc
  rcases request_delta_cases bs d hd with h | h <;> subst h
  · refine ⟨r + 1, w, ?_, ?_, ?_, ?_, ?_⟩ <;>
      simp only [increment_stats_lambda, Stats.add, h1, h2, h3, h4, h5,
        u64add_mod_left]
    · unfold M64; omega
    · unfold M64; omega
    · rw [Nat.succ_mul]
    · unfold M64; omega
  · refine ⟨r, w + 1, ?_, ?_, ?_, ?_, ?_⟩ <;>
      simp only [increment_stats_lambda, Stats.add, h1, h2, h3, h4, h5,
        u64add_mod_left]
    · unfold M64; omega
    · unfold M64; omega
    · unfold M64; omega
    · rw [Nat.succ_mul]

theorem stats_inv_fold (bs : Nat) (l : List Stats) (acc : Stats)
    (hacc : stats_inv bs acc) (hl : ∀ d ∈ l, is_request_delta bs d) :
    stats_inv bs (l.foldl increment_stats_lambda acc) := by
  induction l generalizing acc with
  | nil => exact hacc
  | cons d t ih =>
      exact ih (increment_stats_lambda acc d)
        (stats_inv_step bs acc d hacc (hl d (by simp)))
        (fun x hx => hl x (by simp [hx]))

theorem stats_inv_consequence (bs : Nat) (acc : Stats) (h : stats_inv bs acc) :
    acc.blocks = u64add acc.blocks_read acc.blocks_write ∧
    acc.KB_read = u64mul acc.blocks_read bs ∧
    acc.KB_write = u64mul acc.blocks_write bs := by
  obtain ⟨r, w, h1, h2, h3, h4, h5⟩ := h
  rw [h1, h2, h3, h4, h5]
  unfold u64add u64mul
  refine ⟨by unfold M64; omega, ?_, ?_⟩
  · rw [Nat.mul_mod r bs, Nat.mul_mod (r % M64) bs, Nat.mod_mod_of_dvd r dvd_rfl]
  · rw [Nat.mul_mod w bs, Nat.mul_mod (w % M64) bs, Nat.mod_mod_of_dvd w dvd_rfl]

/-- C5: every per-request Stats delta published by the three engines has
blocks = 1, blocks_read + blocks_write = 1 with blocks_write = 1 exactly
for a write request, KB_read = blocks_read * block_size and
KB_write = blocks_write * block_size; consequently the controller
accumulator over any run of such deltas with a fixed block size satisfies
blocks = blocks_read + blocks_write and KB_read = blocks_read * block_size
(in uint64_t arithmetic). -/
theorem C5_block_accounting :
    (∀ p : AccessParams,
      ((posix_request_stats p).blocks = 1 ∧
        (posix_request_stats p).blocks_read + (posix_request_stats p).blocks_write = 1 ∧
        ((posix_request_stats p).blocks_write = 1 ↔ p.write = true) ∧
        (posix_request_stats p).KB_read
          = (posix_request_stats p).blocks_read * p.block_size ∧
        (posix_request_stats p).KB_write
          = (posix_request_stats p).blocks_write * p.block_size) ∧
      ((aio_request_stats p).blocks = 1 ∧
        (aio_request_stats p).blocks_read + (aio_request_stats p).blocks_write = 1 ∧
        ((aio_request_stats p).blocks_write = 1 ↔ p.write = true) ∧
        (aio_request_stats p).KB_read = (aio_request_stats p).blocks_read * p.block_size ∧
        (aio_request_stats p).KB_write
          = (aio_request_stats p).blocks_write * p.block_size) ∧
      ((prwv2_request_stats p).blocks = 1 ∧
        (prwv2_request_stats p).blocks_read + (prwv2_request_stats p).blocks_write = 1 ∧
        ((prwv2_request_stats p).blocks_write = 1 ↔ p.write = true) ∧
        (prwv2_request_stats p).KB_read
          = (prwv2_request_stats p).blocks_read * p.block_size ∧
        (prwv2_request_stats p).KB_write
          = (prwv2_request_stats p).blocks_write * p.block_size)) ∧
    (∀ (l : List Stats) (bs : Nat), (∀ d ∈ l, is_request_delta bs d) →
      (controller_accumulate l).blocks
        = u64add (controller_accumulate l).blocks_read
            (controller_accumulate l).blocks_write ∧
      (controller_accumulate l).KB_read
        = u64mul (controller_accumulate l).blocks_read bs ∧
      (controller_accumulate l).KB_write
        = u64mul (controller_accumulate l).blocks_write bs) := by
  constructor
  · intro p
    cases hw : p.write <;>
      simp [posix_request_stats, aio_request_stats, prwv2_request_stats, hw]
  · intro l bs hl
    have hzero : stats_inv bs ({} : Stats) :=
      ⟨0, 0, by simp, by simp, by simp, by simp, by simp⟩
    exact stats_inv_consequence bs _ (stats_inv_fold bs l {} hzero hl)

/-- Witness for C5 at a concrete one-request run. -/
theorem C5_block_accounting_witness :
    is_request_delta 4 (posix_request_stats (AccessParams.mk 4 4096 0 false false)) ∧
    (controller_accumulate [posix_request_stats (AccessParams.mk 4 4096 0 false false)]).blocks
      = u64add
          (controller_accumulate
            [posix_request_stats (AccessParams.mk 4 4096 0 false false)]).blocks_read
          (controller_accumulate
            [posix_request_stats (AccessParams.mk 4 4096 0 false false)]).blocks_write :=
  ⟨⟨AccessParams.mk 4 4096 0 false false, rfl, Or.inl rfl⟩,
   (C5_block_accounting.2 [posix_request_stats (AccessParams.mk 4 4096 0 false false)] 4
     (fun d hd => by
       rw [List.mem_singleton] at hd
       exact hd ▸ ⟨AccessParams.mk 4 4096 0 false false, rfl, Or.inl rfl⟩)).1⟩

/-- C6 (amended): shift_report_time ms is rejected with the range error and
the atomic slot unchanged exactly when abs ms reaches the limit computed in
uint32_t arithmetic, (700 * stats_interval) mod 2 to the 32 (equal to
700 * stats_interval whenever that product fits in 32 bits — the original
claim with the mathematical product fails for large stats_interval, see the
counterexample); when accepted and the slot is 0 the value is stored and
the retry counter reset; when a prior shift is pending, an attempt with
fewer than 2 recorded tries fails with an error and increments the
counter, and an attempt with 2 or more recorded tries force-overwrites the
slot and resets the counter. -/
theorem C6_shift_report_time (si : Nat) (st : ShiftState) (ms : Int) :
    ((handle_shift si st ms).1 = ShiftOutcome.rejected_range ↔
      shift_limit si ≤ ms.natAbs) ∧
    (shift_limit si ≤ ms.natAbs →
      handle_shift si st ms = (ShiftOutcome.rejected_range, st)) ∧
    (ms.natAbs < shift_limit si → st.shift_report_time_ms = 0 →
      handle_shift si st ms = (ShiftOutcome.stored, ⟨ms, 0⟩)) ∧
    (ms.natAbs < shift_limit si → st.shift_report_time_ms ≠ 0 →
      st.shift_report_time_tries < max_shift_report_time_tries →
      handle_shift si st ms
        = (ShiftOutcome.pending_fail,
           ⟨st.shift_report_time_ms, st.shift_report_time_tries + 1⟩)) ∧
    (ms.natAbs < shift_limit si → st.shift_report_time_ms ≠ 0 →
      max_shift_report_time_tries ≤ st.shift_report_time_tries →
      handle_shift si st ms = (ShiftOutcome.overridden, ⟨ms, 0⟩)) := by
  by_cases h1 : shift_limit si ≤ ms.natAbs
  · simp only [handle_shift, if_pos h1]
    refine ⟨by simp [h1], fun _ => trivial, ?_, ?_, ?_⟩ <;> intro h <;> omega
  · simp only [handle_shift, if_neg h1]
    by_cases h2 : st.shift_report_time_ms = 0
    · simp only [if_pos h2]
      refine ⟨by simp [h1], fun h => absurd h h1, fun _ _ => trivial, ?_, ?_⟩ <;>
        intro _ hne <;> exact absurd h2 hne
    · simp only [if_neg h2]
      by_cases h3 : max_shift_report_time_tries ≤ st.shift_report_time_tries
      · simp only [if_pos h3]
        refine ⟨by simp [h1], fun h => absurd h h1, fun _ he => absurd he h2,
          fun _ _ hlt => by omega, fun _ _ _ => trivial⟩
      · simp only [if_neg h3]
        refine ⟨by simp [h1], fun h => absurd h h1, fun _ he => absurd he h2,
          fun _ _ _ => trivial, fun _ _ hge => absurd hge h3⟩

/-- Witness for C6: a small shift is stored when the slot is free. -/
theorem C6_shift_report_time_witness :
    (1000 : Int).natAbs < shift_limit 5 ∧
    handle_shift 5 ⟨0, 0⟩ 1000 = (ShiftOutcome.stored, ⟨1000, 0⟩) :=
  ⟨by decide, (C6_shift_report_time 5 ⟨0, 0⟩ 1000).2.2.1 (by decide) rfl⟩

/-- Counterexample to C6 as stated: with stats_interval = 6135668 the
product 700 * stats_interval is 4294967600, which wraps to 304 in the
uint32_t limit variable, so the command with ms = 1000 is rejected although
abs ms is far below 700 * stats_interval. -/
theorem C6_counterexample :
    (handle_shift 6135668 ⟨0, 0⟩ 1000).1 = ShiftOutcome.rejected_range ∧
    (1000 : Int).natAbs < 700 * 6135668 := by
  decide

/-- C7 (amended): a successful command-channel mutation of block_size,
iodepth, write_ratio or random_ratio sets the changed flag; iodepth is
rejected as immutable (error, state unchanged) whenever io_engine is the
synchronous posix engine; a flush_blocks mutation with a parsable value
always succeeds but leaves the changed flag as it was (the original claim
that flush_blocks also sets changed fails, see the counterexample). -/
theorem C7_mutation_changed_flag (s : Args) :
    (∀ n : Nat, (executeCommand s (.cmd_block_size (some n))).1 = none →
      ((executeCommand s (.cmd_block_size (some n))).2).changed = true) ∧
    (∀ n : Nat, (executeCommand s (.cmd_iodepth (some n))).1 = none →
      ((executeCommand s (.cmd_iodepth (some n))).2).changed = true) ∧
    (∀ q : ℚ, (executeCommand s (.cmd_write_ratio (some q))).1 = none →
      ((executeCommand s (.cmd_write_ratio (some q))).2).changed = true) ∧
    (∀ q : ℚ, (executeCommand s (.cmd_random_ratio (some q))).1 = none →
      ((executeCommand s (.cmd_random_ratio (some q))).2).changed = true) ∧
    (s.io_engine = "posix" →
      ∀ v : Option Nat, ((executeCommand s (.cmd_iodepth v)).1).isSome = true ∧
        (executeCommand s (.cmd_iodepth v)).2 = s) ∧
    (∀ n : Nat, (executeCommand s (.cmd_flush_blocks (some n))).1 = none ∧
      ((executeCommand s (.cmd_flush_blocks (some n))).2).changed = s.changed) := by
  refine ⟨?_, ?_, ?_, ?_, ?_, ?_⟩
  · intro n h
    by_cases hv : validate_block_size n = true <;> simp [executeCommand, hv] at h ⊢
  · intro n h
    by_cases he : s.io_engine = "posix"
    · simp [executeCommand, he] at h
    · by_cases hv : validate_iodepth n = true <;> simp [executeCommand, he, hv] at h ⊢
  · intro q h
    by_cases hv : validate_ratio q = true <;> simp [executeCommand, hv] at h ⊢
  · intro q h
    by_cases hv : validate_ratio q = true <;> simp [executeCommand, hv] at h ⊢
  · intro he v
    simp [executeCommand, he]
  · intro n
    simp [executeCommand]

/-- Witness for C7 at concrete commands: a block_size mutation on the
default configuration, and the immutable iodepth rejection on the posix
engine. -/
theorem C7_mutation_changed_flag_witness :
    (executeCommand {} (.cmd_block_size (some 8))).1 = none ∧
    ((executeCommand {} (.cmd_block_size (some 8))).2).changed = true ∧
    ({} : Args).io_engine = "posix" ∧
    ((executeCommand {} (.cmd_iodepth (some 4))).1).isSome = true :=
  ⟨by decide, (C7_mutation_changed_flag {}).1 8 (by decide), rfl,
   ((C7_mutation_changed_flag {}).2.2.2.2.1 rfl (some 4)).1⟩

/-- Counterexample to C7 as stated: on the default configuration the
command flush_blocks=8 succeeds (no error, the field is assigned) yet the
changed flag stays false. -/
theorem C7_counterexample :
    (executeCommand {} (.cmd_flush_blocks (some 8))).1 = none ∧
    ((executeCommand {} (.cmd_flush_blocks (some 8))).2).flush_blocks = 8 ∧
    ((executeCommand {} (.cmd_flush_blocks (some 8))).2).changed = false := by
  decide

/-- C8: a failed command (unknown command, unparsable or out-of-range
value, or an attempt to change an immutable parameter) leaves every
configuration field, including the changed flag, unchanged: whenever
executeCommand reports an error, the resulting Args equals the input. -/
theorem C8_failed_command_unchanged (s : Args) (c : ATCommand)
    (h : ((executeCommand s c).1).isSome = true) :
    (executeCommand s c).2 = s := by
  cases c with
  | help => simp [executeCommand] at h
  | cmd_wait v =>
      cases v with
      | some b => simp [executeCommand] at h
      | none => rfl
  | cmd_block_size v =>
      cases v with
      | some a =>
          by_cases hv : validate_block_size a = true <;>
            simp [executeCommand, hv] at h ⊢
      | none => rfl
  | cmd_iodepth v =>
      by_cases he : s.io_engine = "posix"
      · simp [executeCommand, he]
      · cases v with
        | some a =>
            by_cases hv : validate_iodepth a = true <;>
              simp [executeCommand, he, hv] at h ⊢
        | none => simp [executeCommand, he]
  | cmd_write_ratio v =>
      cases v with
      | some a =>
          by_cases hv : validate_ratio a = true <;>
            simp [executeCommand, hv] at h ⊢
      | none => rfl
  | cmd_random_ratio v =>
      cases v with
      | some a =>
          by_cases hv : validate_ratio a = true <;>
            simp [executeCommand, hv] at h ⊢
      | none => rfl
  | cmd_flush_blocks v =>
      cases v with
      | some a => simp [executeCommand] at h
      | none => rfl
  | unknown n => rfl

/-- Witness for C8 at a concrete failed command. -/
theorem C8_failed_command_unchanged_witness :
    ((executeCommand {} (.unknown "bogus")).1).isSome = true ∧
    (executeCommand {} (.unknown "bogus")).2 = {} :=
  ⟨by decide, C8_failed_command_unchanged {} (.unknown "bogus") (by decide)⟩

end AccessTime3
